import Mathlib

/-!
Shallow embedding of the TrialAtlas search orchestration core
(`src/App.tsx` together with the type declarations of `types.ts`).

Conventions of the embedding:
* TypeScript optional fields (`x?: T`) become `Option T`, with `none`
  modelling an absent field.
* JavaScript string falsiness (`s || d`) is modelled by `jsOrString`:
  the empty string is the only falsy string value.
* `new Date(t.startDate || 0).getTime()` is modelled by carrying the
  parsed timestamp directly: `Trial.startDate : Option Nat` holds the
  milliseconds-since-epoch value of the date string, and a missing date
  yields `new Date(0)`, that is `0`.
* External services (`optimizeSearchQuery`, `searchTrials`,
  `searchPublications`, `rankAndScoreResults`) are modelled as fields of
  an `Env` record returning `Except String` results; a thrown exception
  is an `Except.error`.
* `Array.prototype.sort(cmp)` is modelled by `List.insertionSort` with
  the relation `cmp a b ≤ 0`; the claims proved below only concern the
  resulting order and permutation property, which every comparison sort
  satisfies.
-/

namespace TrialAtlas

/-- From `types.ts`: the expanded search profile returned by the query
optimizer. -/
structure SearchProfile where
  conditions : List String
  interventions : List String
  targets : List String
  synonyms : List String
  suggestedQuery : String
  deriving DecidableEq, Repr

/-- From `types.ts`: server-side trial filters. -/
structure TrialFilters where
  statuses : List String
  phases : List String
  deriving DecidableEq, Repr

/-- From `types.ts`: server-side publication filters. -/
structure PublicationFilters where
  dateFrom : String
  dateTo : String
  journal : String
  author : String
  deriving DecidableEq, Repr

/-- From `types.ts`: `type SortOrder = 'relevance' | 'newest'`. -/
inductive SortOrder where
  | relevance
  | newest
  deriving DecidableEq, Repr

/-- From `types.ts`: a clinical-trial registry record.  Date strings are
modelled by their parsed epoch-millisecond value (see module comment);
`relevanceScore` is the 0-100 AI score. -/
structure Trial where
  id : String
  nctId : String
  title : String
  status : String
  phase : List String
  condition : List String
  intervention : List String
  sponsor : String
  startDate : Option Nat := none
  primaryCompletionDate : Option Nat := none
  description : Option String := none
  briefSummary : Option String := none
  molecularTargets : Option (List String) := none
  lastUpdateDate : Option String := none
  locations : Option Nat := none
  studyType : Option String := none
  relevanceScore : Option Nat := none
  relevanceReason : Option String := none
  primaryOutcomes : Option (List String) := none
  secondaryOutcomes : Option (List String) := none
  enrollmentCount : Option Nat := none
  deriving DecidableEq, Repr

/-- From `types.ts`: a PubMed publication record. -/
structure Publication where
  pmid : String
  title : String
  authors : List String
  journal : String
  pubDate : String
  doi : Option String := none
  abstract : Option String := none
  relevanceScore : Option Nat := none
  relevanceReason : Option String := none
  deriving DecidableEq, Repr

/-- JavaScript `s.toLowerCase()` on the ASCII fragment relevant here:
lower-case every character of the string. -/
def lowerStr (s : String) : String := String.mk (s.data.map Char.toLower)

/-- JavaScript `hay.includes(needle)`: `needle` occurs as a contiguous
substring of `hay`. -/
def jsIncludes (hay needle : String) : Bool :=
  decide (needle.toList <:+: hay.toList)

/-- JavaScript `s || d` for strings: the empty string is the only falsy
string. -/
def jsOrString (s d : String) : String := if s = "" then d else s

/-- The local secondary sort key of `App.tsx`
(`trialSortBy : 'date' | 'phase' | 'title'`). -/
inductive TrialSortBy where
  | date
  | phase
  | title
  deriving DecidableEq, Repr

/-- The filter predicate of the `filteredTrials` memo in `App.tsx`
(lines 239-250): conjunction of free-text, phase-facet, status-facet,
minimum-enrollment and industry-only criteria. -/
def trialMatches (localTrialQuery : String) (selectedPhases selectedStatuses : List String)
    (enrollmentMin : Nat) (industryOnly : Bool) (t : Trial) : Bool :=
  let matchesSearch := jsIncludes (lowerStr t.title) (lowerStr localTrialQuery)
    || jsIncludes (lowerStr t.nctId) (lowerStr localTrialQuery)
    || jsIncludes (lowerStr t.sponsor) (lowerStr localTrialQuery)
  let matchesPhase := selectedPhases.isEmpty || t.phase.any (fun p => selectedPhases.contains p)
  let matchesStatus := selectedStatuses.isEmpty || selectedStatuses.contains t.status
  let matchesEnrollment := decide (enrollmentMin ≤ t.enrollmentCount.getD 0)
  let matchesSponsor := !industryOnly ||
    (!jsIncludes (lowerStr t.sponsor) "university" && !jsIncludes (lowerStr t.sponsor) "hospital")
  matchesSearch && matchesPhase && matchesStatus && matchesEnrollment && matchesSponsor

/-- `(t.relevanceScore || 0)` in the relevance comparator. -/
def relevanceKey (t : Trial) : Nat := t.relevanceScore.getD 0

/-- `new Date(t.startDate || 0).getTime()` in the date comparator
(dates carried as parsed timestamps, missing date gives epoch 0). -/
def dateKey (t : Trial) : Nat := t.startDate.getD 0

/-- `(t.phase[0] || '')` in the phase comparator. -/
def phaseKey (t : Trial) : String := t.phase.headD ""

/-- JavaScript `a.localeCompare(b)` as a three-way integer comparison on
strings. -/
def strCmp (a b : String) : Int := if a < b then -1 else if b < a then 1 else 0

/-- The comparator passed to `results.sort` in `filteredTrials`
(lines 252-257): relevance descending when `sortOrder` is `relevance`,
otherwise date / first-phase descending or title ascending according to
`trialSortBy`. -/
def trialCmp (sortOrder : SortOrder) (sortBy : TrialSortBy) (a b : Trial) : Int :=
  match sortOrder with
  | .relevance => (relevanceKey b : Int) - (relevanceKey a : Int)
  | .newest =>
    match sortBy with
    | .date => (dateKey b : Int) - (dateKey a : Int)
    | .phase => strCmp (phaseKey b) (phaseKey a)
    | .title => strCmp a.title b.title

/-- The `filteredTrials` memo of `App.tsx`: filter the current trial
collection by the local facet predicate, then sort with the comparator. -/
def filteredTrials (trials : List Trial) (localTrialQuery : String)
    (selectedPhases selectedStatuses : List String) (enrollmentMin : Nat)
    (industryOnly : Bool) (sortOrder : SortOrder) (sortBy : TrialSortBy) : List Trial :=
  (trials.filter
      (trialMatches localTrialQuery selectedPhases selectedStatuses enrollmentMin industryOnly)
    ).insertionSort (fun a b => trialCmp sortOrder sortBy a b ≤ 0)

/-- From `types.ts`: AI analysis of one publication (the `kpis` record
is inlined as a nested structure). -/
structure PublicationKpis where
  trialType : String
  blinding : String
  population : String
  safetyConcerns : String
  possibleBiases : String
  goldStandards : String
  quality : String
  robustness : String
  deriving DecidableEq, Repr

/-- From `types.ts`: `PublicationAnalysis`. -/
structure PublicationAnalysis where
  why : String
  how : String
  what : String
  meaning : String
  statisticalRelevance : String
  clinicalRelevance : String
  kpis : PublicationKpis
  deriving DecidableEq, Repr

/-- From `types.ts`: one mechanism-of-action group of the pipeline map. -/
structure TrialGroup where
  groupName : String
  moaDescription : String
  trialIds : List String
  deriving DecidableEq, Repr

/-- From `types.ts`: one clinical phase of the pipeline map. -/
structure PipelinePhase where
  phaseName : String
  groups : List TrialGroup
  deriving DecidableEq, Repr

/-- From `types.ts`: `PipelineData`. -/
structure PipelineData where
  phases : List PipelinePhase
  deriving DecidableEq, Repr

/-- From `types.ts`: one row of the comparison matrix. -/
structure ComparisonRow where
  label : String
  values : List String
  deriving DecidableEq, Repr

/-- From `types.ts`: `ComparisonMatrix`. -/
structure ComparisonMatrix where
  headers : List String
  rows : List ComparisonRow
  strategicSummary : Option String := none
  deriving DecidableEq, Repr

/-- From `types.ts`: the `identification` section of `DeepTrialMetrics`. -/
structure MetricsIdentification where
  trialId : String
  officialTitle : String
  sponsorCollaborators : String
  regulatoryStatus : String
  recruitmentStatus : String
  deriving DecidableEq, Repr

/-- From `types.ts`: the `design` section of `DeepTrialMetrics`. -/
structure MetricsDesign where
  phase : String
  studyType : String
  allocation : String
  masking : String
  controlType : String
  designLogic : String
  deriving DecidableEq, Repr

/-- From `types.ts`: the `population` section of `DeepTrialMetrics`. -/
structure MetricsPopulation where
  targetPopulation : String
  inclusionCriteria : String
  exclusionCriteria : String
  demographics : String
  sampleSize : String
  geographicScope : String
  deriving DecidableEq, Repr

/-- From `types.ts`: the `intervention` section of `DeepTrialMetrics`. -/
structure MetricsIntervention where
  type : String
  dosageAdministration : String
  frequencyDuration : String
  comparatorDetails : String
  treatmentArms : String
  deriving DecidableEq, Repr

/-- From `types.ts`: the `outcomes` section of `DeepTrialMetrics`. -/
structure MetricsOutcomes where
  primaryOutcomes : String
  secondaryOutcomes : String
  exploratoryOutcomes : String
  deriving DecidableEq, Repr

/-- From `types.ts`: the `statistical` section of `DeepTrialMetrics`. -/
structure MetricsStatistical where
  sap : String
  primaryEstimand : String
  effectMeasures : String
  powerJustification : String
  alphaLevel : String
  missingDataHandling : String
  deriving DecidableEq, Repr

/-- From `types.ts`: the `safety` section of `DeepTrialMetrics`. -/
structure MetricsSafety where
  adverseEventsFocus : String
  stoppingCriteria : String
  dsmbOversight : String
  riskMitigation : String
  deriving DecidableEq, Repr

/-- From `types.ts`: the `ethics` section of `DeepTrialMetrics`. -/
structure MetricsEthics where
  ethicsApproval : String
  informedConsent : String
  privacyProtection : String
  gcpCompliance : String
  deriving DecidableEq, Repr

/-- From `types.ts`: the `operational` section of `DeepTrialMetrics`. -/
structure MetricsOperational where
  timelineOperational : String
  enrollmentRate : String
  dropoutRateEstimate : String
  sitePerformance : String
  deriving DecidableEq, Repr

/-- From `types.ts`: the `results` section of `DeepTrialMetrics`. -/
structure MetricsResults where
  postedResultsStatus : String
  endpointsMet : String
  effectSizes : String
  publicationStatus : String
  deriving DecidableEq, Repr

/-- From `types.ts`: the ten-section `DeepTrialMetrics` report. -/
structure DeepTrialMetrics where
  identification : MetricsIdentification
  design : MetricsDesign
  population : MetricsPopulation
  intervention : MetricsIntervention
  outcomes : MetricsOutcomes
  statistical : MetricsStatistical
  safety : MetricsSafety
  ethics : MetricsEthics
  operational : MetricsOperational
  results : MetricsResults
  deriving DecidableEq, Repr

/-- From `App.tsx`: the `ChatContext` union type. -/
inductive ChatContext where
  | global
  | trial (data : Trial)
  | publication (data : Publication) (analysis : Option PublicationAnalysis)
  deriving DecidableEq, Repr

/-- One entry of the `chatHistory` state of `App.tsx`. -/
structure ChatMessage where
  isUser : Bool
  text : String
  deriving DecidableEq, Repr

/-- From `App.tsx`: the `selectedPaper` state slot. -/
structure SelectedPaper where
  paper : Publication
  analysis : Option PublicationAnalysis
  deriving DecidableEq, Repr

/-- From `types.ts`: the `SearchState` aggregate (Session State). -/
structure SearchState where
  trials : List Trial
  publications : List Publication
  loading : Bool
  error : Option String
  query : String
  filters : TrialFilters
  pubFilters : PublicationFilters
  sortOrder : SortOrder
  profile : Option SearchProfile := none
  deriving DecidableEq, Repr

/-- The per-search UI-only state slots of `App.tsx` that `performSearch`
resets before its first external call. -/
structure UIState where
  selectedTrial : Option Trial
  selectedPaper : Option SelectedPaper
  pipelineData : Option PipelineData
  comparisonMatrix : Option ComparisonMatrix
  deepMetrics : Option DeepTrialMetrics
  selectedForComparison : List String
  chatContext : ChatContext
  chatHistory : List ChatMessage
  deriving DecidableEq, Repr

/-- One entry of the score mapping returned by `rankAndScoreResults`
(`scoresMap[id] = { score, reason }`). -/
structure ScoreInfo where
  score : Nat
  reason : String
  deriving DecidableEq, Repr

/-- The score mapping returned by the Enrichment Scorer: a finite map
from entity identifier to score and rationale, modelled as an
association list (`scoresMap[id]` is `List.lookup id`). -/
def ScoresMap : Type := List (String × ScoreInfo)

instance : DecidableEq ScoresMap :=
  inferInstanceAs (DecidableEq (List (String × ScoreInfo)))

/-- One element of the `itemsToScore` array passed to the Enrichment
Scorer (`[...trialResults.slice(0, 15), ...pubResults.slice(0, 15)]`
mixes trials and publications). -/
inductive ScoreItem where
  | trial (t : Trial)
  | pub (p : Publication)
  deriving DecidableEq, Repr

/-- The external services called by `performSearch`, as response
functions; `Except.error` models a thrown exception. -/
structure Env where
  optimize : String → Except String SearchProfile
  searchTrials : String → TrialFilters → SortOrder → Except String (List Trial)
  searchPublications : String → PublicationFilters → SortOrder → Except String (List Publication)
  rankAndScoreResults : String → List ScoreItem → Except String ScoresMap

/-- A record of one external call made by `performSearch`, with the
argument values it was invoked with. -/
inductive CallEvent where
  | optimizeCall (rawQuery : String)
  | trialsCall (query : String) (filters : TrialFilters) (sort : SortOrder)
  | pubsCall (query : String) (filters : PublicationFilters) (sort : SortOrder)
  deriving DecidableEq, Repr

/-- `App.tsx` lines 87-96, the synchronous prefix of `performSearch`
before any external call: set `loading`, clear `error`, set `query` and
`sortOrder` on Session State, and reset every per-search UI-only slot.
The `currentFilters` and `currentPubFilters` arguments are received but
(as in the source) not written into Session State here. -/
def performSearchStart (searchQuery : String) (currentFilters : TrialFilters)
    (currentPubFilters : PublicationFilters) (sort : SortOrder)
    (s : SearchState) (u : UIState) : SearchState × UIState :=
  ({ s with loading := true, error := none, query := searchQuery, sortOrder := sort },
   { selectedTrial := none
     selectedPaper := none
     pipelineData := none
     comparisonMatrix := none
     deepMetrics := none
     selectedForComparison := []
     chatContext := .global
     chatHistory := [] })

/-- The error message set by the `catch` block of `performSearch`. -/
def degradedMessage : String := "Semantic service degraded. Showing basic registry results."

/-- The sample passed to the Enrichment Scorer:
`[...trialResults.slice(0, 15), ...pubResults.slice(0, 15)]`. -/
def itemsToScore (trialResults : List Trial) (pubResults : List Publication) : List ScoreItem :=
  (trialResults.take 15).map ScoreItem.trial ++ (pubResults.take 15).map ScoreItem.pub

/-- The detached background enrichment task spawned at the publish
point: it captures the raw query and the sampled items, nothing else. -/
structure EnrichmentTask where
  query : String
  items : List ScoreItem
  deriving DecidableEq, Repr

/-- `App.tsx` lines 98-111 and 136-139, the foreground commit of
`performSearch` after the synchronous prefix: optimizer, then both
retrievers (`Promise.all`), then either the publish update or the
degraded-mode `catch` update.  Returns the new Session State, the
detached enrichment task when one is spawned, and the trace of external
calls with their argument values. -/
def runForeground (env : Env) (searchQuery : String) (currentFilters : TrialFilters)
    (currentPubFilters : PublicationFilters) (sort : SortOrder)
    (s : SearchState) : SearchState × Option EnrichmentTask × List CallEvent :=
  let s1 := (performSearchStart searchQuery currentFilters currentPubFilters sort s
      ⟨none, none, none, none, none, [], .global, []⟩).1
  match env.optimize searchQuery with
  | .error _ =>
    ({ s1 with error := some degradedMessage, loading := false }, none,
     [.optimizeCall searchQuery])
  | .ok profile =>
    let trialQuery := jsOrString profile.suggestedQuery searchQuery
    let trace := [CallEvent.optimizeCall searchQuery,
                  CallEvent.trialsCall trialQuery currentFilters sort,
                  CallEvent.pubsCall searchQuery currentPubFilters sort]
    match env.searchTrials trialQuery currentFilters sort,
          env.searchPublications searchQuery currentPubFilters sort with
    | .ok trialResults, .ok pubResults =>
      ({ s1 with trials := trialResults, publications := pubResults,
                 profile := some profile, loading := false },
       some ⟨searchQuery, itemsToScore trialResults pubResults⟩, trace)
    | _, _ =>
      ({ s1 with error := some degradedMessage, loading := false }, none, trace)

/-- The per-trial enrichment merge
(`scoresMap[t.nctId] ? { ...t, relevanceScore, relevanceReason } : t`). -/
def applyTrialScore (m : ScoresMap) (t : Trial) : Trial :=
  match List.lookup t.nctId m with
  | some si => { t with relevanceScore := some si.score, relevanceReason := some si.reason }
  | none => t

/-- The per-publication enrichment merge
(`scoresMap[p.pmid] ? { ...p, relevanceScore, relevanceReason } : p`). -/
def applyPubScore (m : ScoresMap) (p : Publication) : Publication :=
  match List.lookup p.pmid m with
  | some si => { p with relevanceScore := some si.score, relevanceReason := some si.reason }
  | none => p

/-- The enrichment merge `setState` (`App.tsx` lines 118-130): map the
score mapping over the current trial and publication collections of
Session State, touching no other field. -/
def mergeScores (m : ScoresMap) (s : SearchState) : SearchState :=
  { s with trials := s.trials.map (applyTrialScore m),
           publications := s.publications.map (applyPubScore m) }

/-- `App.tsx` lines 113-134, the detached background task: call the
Enrichment Scorer with the captured raw query and sampled items; on
success apply the merge to the current Session State, on a thrown
exception log only (state unchanged). -/
def runEnrichment (env : Env) (task : EnrichmentTask) (s : SearchState) : SearchState :=
  match env.rankAndScoreResults task.query task.items with
  | .ok m => mergeScores m s
  | .error _ => s

/-- A concrete optimizer profile used to instantiate the theorems below. -/
def sampleProfile : SearchProfile :=
  { conditions := ["lung cancer"]
    interventions := ["sotorasib"]
    targets := ["KRAS"]
    synonyms := []
    suggestedQuery := "KRAS G12C inhibitor NSCLC" }

/-- A concrete industry-sponsored trial without a relevance score. -/
def sampleTrial1 : Trial :=
  { id := "1", nctId := "NCT001", title := "Alpha study", status := "RECRUITING"
    phase := ["PHASE1"], condition := ["NSCLC"], intervention := ["sotorasib"]
    sponsor := "Genentech", startDate := some 1700000000000, enrollmentCount := some 150 }

/-- A concrete academic trial in phase 2. -/
def sampleTrial2 : Trial :=
  { id := "2", nctId := "NCT002", title := "Beta study", status := "COMPLETED"
    phase := ["PHASE2"], condition := ["NSCLC"], intervention := ["adagrasib"]
    sponsor := "Johns Hopkins Hospital", startDate := some 1600000000000
    enrollmentCount := some 50 }

/-- A concrete publication. -/
def samplePub1 : Publication :=
  { pmid := "100", title := "Pub A", authors := ["Doe"], journal := "Nature"
    pubDate := "2023-01-01" }

/-- Empty trial filters. -/
def sampleFilters : TrialFilters := { statuses := [], phases := [] }

/-- Non-empty trial filters, distinct from `sampleFilters`. -/
def altFilters : TrialFilters := { statuses := ["COMPLETED"], phases := ["PHASE3"] }

/-- Empty publication filters. -/
def samplePubFilters : PublicationFilters :=
  { dateFrom := "", dateTo := "", journal := "", author := "" }

/-- A concrete pre-search Session State with stale collections. -/
def sampleState : SearchState :=
  { trials := [sampleTrial2]
    publications := [samplePub1]
    loading := false
    error := none
    query := "KRAS G12C Inhibitors in Lung Cancer"
    filters := sampleFilters
    pubFilters := samplePubFilters
    sortOrder := .relevance
    profile := none }

/-- A concrete UI state with every per-search slot populated. -/
def sampleUI : UIState :=
  { selectedTrial := some sampleTrial1
    selectedPaper := some ⟨samplePub1, none⟩
    pipelineData := some ⟨[]⟩
    comparisonMatrix := some ⟨["a"], [], none⟩
    deepMetrics := none
    selectedForComparison := ["NCT001"]
    chatContext := .trial sampleTrial1
    chatHistory := [⟨true, "hi"⟩] }

/-- A concrete score mapping covering `NCT001` only. -/
def sampleScores : ScoresMap := [("NCT001", ⟨88, "strong mechanistic match"⟩)]

/-- An environment in which every external call succeeds. -/
def envOk : Env :=
  { optimize := fun _ => .ok sampleProfile
    searchTrials := fun _ _ _ => .ok [sampleTrial1, sampleTrial2]
    searchPublications := fun _ _ _ => .ok [samplePub1]
    rankAndScoreResults := fun _ _ => .ok sampleScores }

/-- An environment in which the optimizer throws. -/
def envOptFail : Env := { envOk with optimize := fun _ => .error "upstream unavailable" }

/-- An environment in which the Enrichment Scorer throws. -/
def envScoreFail : Env := { envOk with rankAndScoreResults := fun _ _ => .error "quota" }

/-- An environment whose optimizer returns an empty suggested query. -/
def envEmptySuggested : Env :=
  { envOk with optimize := fun _ => .ok { sampleProfile with suggestedQuery := "" } }

/-- The first-commit environment of the staleness scenario: retrieval
returns `sampleTrial2`, and the scorer (slowly) returns scores for
`NCT001`. -/
def envFirstCommit : Env :=
  { envOk with searchTrials := fun _ _ _ => .ok [sampleTrial2] }

/-- The second-commit environment of the staleness scenario: retrieval
returns the unscored `sampleTrial1` (whose id `NCT001` collides with the
first commit's score mapping). -/
def envSecondCommit : Env :=
  { envOk with searchTrials := fun _ _ _ => .ok [sampleTrial1]
               rankAndScoreResults := fun _ _ => .ok [] }

/-- Claim C1: for every search commit in which the optimizer call and
both retriever calls succeed, the trial collection published into
Session State is exactly the list returned by the Trial Retriever, the
publication collection is exactly the list returned by the Publication
Retriever (same lengths, same identifiers, same order), the profile
equals the optimizer output, and the loading flag is false at the
publish point. -/
theorem claim_C1_publish_exact (env : Env) (q : String) (f : TrialFilters)
    (pf : PublicationFilters) (so : SortOrder) (s0 : SearchState)
    (prof : SearchProfile) (T : List Trial) (P : List Publication)
    (ho : env.optimize q = .ok prof)
    (ht : env.searchTrials (jsOrString prof.suggestedQuery q) f so = .ok T)
    (hp : env.searchPublications q pf so = .ok P) :
    (runForeground env q f pf so s0).1.trials = T ∧
    (runForeground env q f pf so s0).1.trials.length = T.length ∧
    (runForeground env q f pf so s0).1.trials.map Trial.nctId = T.map Trial.nctId ∧
    (runForeground env q f pf so s0).1.publications = P ∧
    (runForeground env q f pf so s0).1.publications.length = P.length ∧
    (runForeground env q f pf so s0).1.publications.map Publication.pmid
      = P.map Publication.pmid ∧
    (runForeground env q f pf so s0).1.profile = some prof ∧
    (runForeground env q f pf so s0).1.loading = false := by
  simp [runForeground, performSearchStart, ho, ht, hp]

/-- Witness for C1 at a concrete environment where every call succeeds. -/
theorem claim_C1_publish_exact_witness :
    (runForeground envOk "kras" sampleFilters samplePubFilters .relevance sampleState).1.trials
      = [sampleTrial1, sampleTrial2] ∧
    (runForeground envOk "kras" sampleFilters samplePubFilters .relevance
        sampleState).1.trials.length = ([sampleTrial1, sampleTrial2] : List Trial).length ∧
    (runForeground envOk "kras" sampleFilters samplePubFilters .relevance
        sampleState).1.trials.map Trial.nctId
      = ([sampleTrial1, sampleTrial2] : List Trial).map Trial.nctId ∧
    (runForeground envOk "kras" sampleFilters samplePubFilters .relevance
        sampleState).1.publications = [samplePub1] ∧
    (runForeground envOk "kras" sampleFilters samplePubFilters .relevance
        sampleState).1.publications.length = ([samplePub1] : List Publication).length ∧
    (runForeground envOk "kras" sampleFilters samplePubFilters .relevance
        sampleState).1.publications.map Publication.pmid
      = ([samplePub1] : List Publication).map Publication.pmid ∧
    (runForeground envOk "kras" sampleFilters samplePubFilters .relevance
        sampleState).1.profile = some sampleProfile ∧
    (runForeground envOk "kras" sampleFilters samplePubFilters .relevance
        sampleState).1.loading = false :=
  claim_C1_publish_exact envOk "kras" sampleFilters samplePubFilters .relevance sampleState
    sampleProfile [sampleTrial1, sampleTrial2] [samplePub1] rfl rfl rfl

/-- Claim C2: for every search commit in which the optimizer throws, or
either retriever throws, the commit is all-or-nothing: Session State
trials, publications and profile are unchanged from their pre-call
values, the session error message is non-null, and the loading flag is
false. -/
theorem claim_C2_fatal_failure_atomic (env : Env) (q : String) (f : TrialFilters)
    (pf : PublicationFilters) (so : SortOrder) (s0 : SearchState)
    (hfail : (∃ e, env.optimize q = .error e) ∨
      ∃ prof, env.optimize q = .ok prof ∧
        ((∃ e, env.searchTrials (jsOrString prof.suggestedQuery q) f so = .error e) ∨
         (∃ e, env.searchPublications q pf so = .error e))) :
    (runForeground env q f pf so s0).1.trials = s0.trials ∧
    (runForeground env q f pf so s0).1.publications = s0.publications ∧
    (runForeground env q f pf so s0).1.profile = s0.profile ∧
    (runForeground env q f pf so s0).1.error ≠ none ∧
    (runForeground env q f pf so s0).1.loading = false := by
  rcases hfail with ⟨e, he⟩ | ⟨prof, hprof, hret⟩
  · simp [runForeground, performSearchStart, he]
  · rcases hret with ⟨e, he⟩ | ⟨e, he⟩
    · cases hpub : env.searchPublications q pf so <;>
        simp [runForeground, performSearchStart, hprof, he, hpub]
    · cases htr : env.searchTrials (jsOrString prof.suggestedQuery q) f so <;>
        simp [runForeground, performSearchStart, hprof, he, htr]

/-- Witness for C2 at a concrete environment whose optimizer throws. -/
theorem claim_C2_fatal_failure_atomic_witness :
    (runForeground envOptFail "kras" sampleFilters samplePubFilters .relevance
        sampleState).1.trials = sampleState.trials ∧
    (runForeground envOptFail "kras" sampleFilters samplePubFilters .relevance
        sampleState).1.publications = sampleState.publications ∧
    (runForeground envOptFail "kras" sampleFilters samplePubFilters .relevance
        sampleState).1.profile = sampleState.profile ∧
    (runForeground envOptFail "kras" sampleFilters samplePubFilters .relevance
        sampleState).1.error ≠ none ∧
    (runForeground envOptFail "kras" sampleFilters samplePubFilters .relevance
        sampleState).1.loading = false :=
  claim_C2_fatal_failure_atomic envOptFail "kras" sampleFilters samplePubFilters .relevance
    sampleState (Or.inl ⟨"upstream unavailable", rfl⟩)

/-- Claim C3: for every score mapping and every current trial and
publication collection, the enrichment merge preserves lengths,
membership and order (identifier sequences are unchanged), changes only
the relevanceScore and rationale fields of entities whose identifier is
in the mapping, and leaves every entity whose identifier is absent from
the mapping entirely unchanged. -/
theorem claim_C3_merge_identifier_scoped (m : ScoresMap) (s : SearchState) :
    (mergeScores m s).trials.length = s.trials.length ∧
    (mergeScores m s).publications.length = s.publications.length ∧
    (mergeScores m s).trials.map Trial.nctId = s.trials.map Trial.nctId ∧
    (mergeScores m s).publications.map Publication.pmid
      = s.publications.map Publication.pmid ∧
    (∀ t : Trial, List.lookup t.nctId m = none → applyTrialScore m t = t) ∧
    (∀ (t : Trial) (si : ScoreInfo), List.lookup t.nctId m = some si →
      applyTrialScore m t =
        { t with relevanceScore := some si.score, relevanceReason := some si.reason }) ∧
    (∀ p : Publication, List.lookup p.pmid m = none → applyPubScore m p = p) ∧
    (∀ (p : Publication) (si : ScoreInfo), List.lookup p.pmid m = some si →
      applyPubScore m p =
        { p with relevanceScore := some si.score, relevanceReason := some si.reason }) ∧
    (mergeScores m s).loading = s.loading ∧
    (mergeScores m s).error = s.error ∧
    (mergeScores m s).query = s.query ∧
    (mergeScores m s).profile = s.profile := by
  refine ⟨by simp [mergeScores], by simp [mergeScores], ?_, ?_, ?_, ?_, ?_, ?_,
    rfl, rfl, rfl, rfl⟩
  · simp only [mergeScores, List.map_map]
    apply List.map_congr_left
    intro t _
    simp only [Function.comp_apply, applyTrialScore]
    cases List.lookup t.nctId m <;> rfl
  · simp only [mergeScores, List.map_map]
    apply List.map_congr_left
    intro p _
    simp only [Function.comp_apply, applyPubScore]
    cases List.lookup p.pmid m <;> rfl
  · intro t h
    simp [applyTrialScore, h]
  · intro t si h
    simp [applyTrialScore, h]
  · intro p h
    simp [applyPubScore, h]
  · intro p si h
    simp [applyPubScore, h]

/-- Witness for C3 at a concrete mapping and state: the scored entity is
updated in place, the unscored publication is untouched. -/
theorem claim_C3_merge_identifier_scoped_witness :
    (mergeScores sampleScores sampleState).trials.map Trial.nctId
      = sampleState.trials.map Trial.nctId ∧
    applyPubScore sampleScores samplePub1 = samplePub1 ∧
    applyTrialScore sampleScores sampleTrial1 =
      { sampleTrial1 with relevanceScore := some 88
                          relevanceReason := some "strong mechanistic match" } :=
  ⟨(claim_C3_merge_identifier_scoped sampleScores sampleState).2.2.1,
   (claim_C3_merge_identifier_scoped sampleScores sampleState).2.2.2.2.2.2.1 samplePub1 rfl,
   (claim_C3_merge_identifier_scoped sampleScores sampleState).2.2.2.2.2.1 sampleTrial1
     ⟨88, "strong mechanistic match"⟩ rfl⟩

/-- Claim C4: the detached enrichment task never changes the loading
flag or the error message of Session State; when the Enrichment Scorer
throws, no Session State mutation occurs at all. -/
theorem claim_C4_enrichment_silent (env : Env) (task : EnrichmentTask) (s : SearchState) :
    (runEnrichment env task s).loading = s.loading ∧
    (runEnrichment env task s).error = s.error ∧
    (∀ e, env.rankAndScoreResults task.query task.items = .error e →
      runEnrichment env task s = s) := by
  cases h : env.rankAndScoreResults task.query task.items <;>
    simp [runEnrichment, mergeScores, h]

/-- Witness for C4 at a concrete environment whose scorer throws: the
state is returned unchanged. -/
theorem claim_C4_enrichment_silent_witness :
    runEnrichment envScoreFail ⟨"kras", []⟩ sampleState = sampleState :=
  (claim_C4_enrichment_silent envScoreFail ⟨"kras", []⟩ sampleState).2.2 "quota" rfl

/-- Claim C5: starting a new search does not cancel an in-flight
enrichment task: in the interleaving where a second commit publishes new
collections before the first commit's enrichment response arrives, the
late-arriving merge is applied to the then-current (second commit's)
collections — there is no epoch or snapshot guard making the stale merge
a no-op.  The first commit spawns a task carrying only the first raw
query and item sample; running that task after the second publish
rewrites the second commit's collections with the first commit's score
mapping. -/
theorem claim_C5_stale_merge_uncancelled (env1 env2 : Env) (q1 q2 : String)
    (f1 f2 : TrialFilters) (pf1 pf2 : PublicationFilters) (so1 so2 : SortOrder)
    (s0 : SearchState) (prof1 prof2 : SearchProfile)
    (T1 T2 : List Trial) (P1 P2 : List Publication) (m1 : ScoresMap)
    (h1o : env1.optimize q1 = .ok prof1)
    (h1t : env1.searchTrials (jsOrString prof1.suggestedQuery q1) f1 so1 = .ok T1)
    (h1p : env1.searchPublications q1 pf1 so1 = .ok P1)
    (h2o : env2.optimize q2 = .ok prof2)
    (h2t : env2.searchTrials (jsOrString prof2.suggestedQuery q2) f2 so2 = .ok T2)
    (h2p : env2.searchPublications q2 pf2 so2 = .ok P2)
    (hm : env1.rankAndScoreResults q1 (itemsToScore T1 P1) = .ok m1) :
    (runForeground env1 q1 f1 pf1 so1 s0).2.1 = some ⟨q1, itemsToScore T1 P1⟩ ∧
    (runEnrichment env1 ⟨q1, itemsToScore T1 P1⟩
        (runForeground env2 q2 f2 pf2 so2
          (runForeground env1 q1 f1 pf1 so1 s0).1).1).trials
      = T2.map (applyTrialScore m1) ∧
    (runEnrichment env1 ⟨q1, itemsToScore T1 P1⟩
        (runForeground env2 q2 f2 pf2 so2
          (runForeground env1 q1 f1 pf1 so1 s0).1).1).publications
      = P2.map (applyPubScore m1) := by
  refine ⟨?_, ?_, ?_⟩ <;>
    simp [runForeground, performSearchStart, runEnrichment, mergeScores,
      h1o, h1t, h1p, h2o, h2t, h2p, hm]

/-- Witness for C5 at a concrete interleaving: the first commit's score
mapping for `NCT001` lands on the second commit's collection and changes
it (the stale merge is not a no-op). -/
theorem claim_C5_stale_merge_uncancelled_witness :
    ((runEnrichment envFirstCommit ⟨"q1", itemsToScore [sampleTrial2] [samplePub1]⟩
        (runForeground envSecondCommit "q2" sampleFilters samplePubFilters .relevance
          (runForeground envFirstCommit "q1" sampleFilters samplePubFilters .relevance
            sampleState).1).1).trials
      = [sampleTrial1].map (applyTrialScore sampleScores)) ∧
    [sampleTrial1].map (applyTrialScore sampleScores) ≠ [sampleTrial1] :=
  ⟨(claim_C5_stale_merge_uncancelled envFirstCommit envSecondCommit "q1" "q2"
      sampleFilters sampleFilters samplePubFilters samplePubFilters .relevance .relevance
      sampleState sampleProfile sampleProfile [sampleTrial2] [sampleTrial1]
      [samplePub1] [samplePub1] sampleScores rfl rfl rfl rfl rfl rfl rfl).2.1,
   by decide⟩

/-- Counterexample to claim C6 as stated: when the optimizer returns an
empty suggested query, the Trial Retriever is called with the original
raw query, not with the optimizer's suggested query. -/
theorem claim_C6_cex_empty_suggested_query :
    envEmptySuggested.optimize "raw query" =
      .ok { sampleProfile with suggestedQuery := "" } ∧
    (runForeground envEmptySuggested "raw query" sampleFilters samplePubFilters .relevance
        sampleState).2.2
      = [.optimizeCall "raw query",
         .trialsCall "raw query" sampleFilters .relevance,
         .pubsCall "raw query" samplePubFilters .relevance] ∧
    ("raw query" : String) ≠ ({ sampleProfile with suggestedQuery := "" }).suggestedQuery :=
  ⟨rfl, by decide, by decide⟩

/-- Claim C6 (amended): for every successful commit, the Trial Retriever
is called with the optimizer's suggested query when that query is
non-empty and with the original raw query otherwise; the Publication
Retriever is called with the original raw query; and the enrichment task
carries the original raw query together with exactly the first 15 trials
and first 15 publications of the just-published collections, in order. -/
theorem claim_C6_call_arguments (env : Env) (q : String) (f : TrialFilters)
    (pf : PublicationFilters) (so : SortOrder) (s0 : SearchState)
    (prof : SearchProfile) (T : List Trial) (P : List Publication)
    (ho : env.optimize q = .ok prof)
    (ht : env.searchTrials (jsOrString prof.suggestedQuery q) f so = .ok T)
    (hp : env.searchPublications q pf so = .ok P) :
    (runForeground env q f pf so s0).2.2
      = [.optimizeCall q,
         .trialsCall (if prof.suggestedQuery = "" then q else prof.suggestedQuery) f so,
         .pubsCall q pf so] ∧
    (runForeground env q f pf so s0).2.1
      = some ⟨q, ((runForeground env q f pf so s0).1.trials.take 15).map ScoreItem.trial
                ++ ((runForeground env q f pf so s0).1.publications.take 15).map
                    ScoreItem.pub⟩ := by
  have ht2 : env.searchTrials (if prof.suggestedQuery = "" then q else prof.suggestedQuery)
      f so = .ok T := by
    simpa [jsOrString] using ht
  constructor <;>
    simp [runForeground, performSearchStart, itemsToScore, jsOrString, ho, ht2, hp]

/-- Witness for the amended C6 at a concrete successful commit. -/
theorem claim_C6_call_arguments_witness :
    (runForeground envOk "kras" sampleFilters samplePubFilters .relevance sampleState).2.2
      = [.optimizeCall "kras",
         .trialsCall (if sampleProfile.suggestedQuery = "" then "kras"
                      else sampleProfile.suggestedQuery) sampleFilters .relevance,
         .pubsCall "kras" samplePubFilters .relevance] ∧
    (runForeground envOk "kras" sampleFilters samplePubFilters .relevance sampleState).2.1
      = some ⟨"kras",
          ((runForeground envOk "kras" sampleFilters samplePubFilters .relevance
              sampleState).1.trials.take 15).map ScoreItem.trial
            ++ ((runForeground envOk "kras" sampleFilters samplePubFilters .relevance
              sampleState).1.publications.take 15).map ScoreItem.pub⟩ :=
  claim_C6_call_arguments envOk "kras" sampleFilters samplePubFilters .relevance sampleState
    sampleProfile [sampleTrial1, sampleTrial2] [samplePub1] rfl rfl rfl

/-- Counterexample to claim C7 as stated: at a search start whose new
filters differ from the ones already in Session State, the filters field
of Session State keeps its old value — the start step does not set the
filters fields to the values of the new search. -/
theorem claim_C7_cex_filters_not_set :
    (performSearchStart "new query" altFilters samplePubFilters .newest
        sampleState sampleUI).1.filters = sampleState.filters ∧
    sampleState.filters ≠ altFilters :=
  ⟨rfl, by decide⟩

/-- Claim C7 (amended): at every search start (before any external call
resolves) the coordinator resets all per-search UI-only state (selected
detail views, generated reports, comparison selection, conversational
context and history), sets loading to true, clears the error message,
and sets the query and sortOrder fields of Session State; the filters
fields of Session State are left unchanged (they are not set to the new
search's filter arguments), as are the entity collections and profile. -/
theorem claim_C7_search_start_frame (q : String) (f : TrialFilters)
    (pf : PublicationFilters) (so : SortOrder) (s : SearchState) (u : UIState) :
    (performSearchStart q f pf so s u).1.loading = true ∧
    (performSearchStart q f pf so s u).1.error = none ∧
    (performSearchStart q f pf so s u).1.query = q ∧
    (performSearchStart q f pf so s u).1.sortOrder = so ∧
    (performSearchStart q f pf so s u).1.filters = s.filters ∧
    (performSearchStart q f pf so s u).1.pubFilters = s.pubFilters ∧
    (performSearchStart q f pf so s u).1.trials = s.trials ∧
    (performSearchStart q f pf so s u).1.publications = s.publications ∧
    (performSearchStart q f pf so s u).1.profile = s.profile ∧
    (performSearchStart q f pf so s u).2
      = { selectedTrial := none, selectedPaper := none, pipelineData := none,
          comparisonMatrix := none, deepMetrics := none, selectedForComparison := [],
          chatContext := .global, chatHistory := [] } :=
  ⟨rfl, rfl, rfl, rfl, rfl, rfl, rfl, rfl, rfl, rfl⟩

/-- Membership in the filtered, sorted trial view, characterized by the
conjunction of the five facet criteria. -/
theorem mem_filteredTrials (trials : List Trial) (q : String)
    (sp ss : List String) (em : Nat) (io : Bool) (so : SortOrder) (sb : TrialSortBy)
    (t : Trial) :
    t ∈ filteredTrials trials q sp ss em io so sb ↔
      (t ∈ trials ∧
       (jsIncludes (lowerStr t.title) (lowerStr q) = true ∨
        jsIncludes (lowerStr t.nctId) (lowerStr q) = true ∨
        jsIncludes (lowerStr t.sponsor) (lowerStr q) = true) ∧
       (sp = [] ∨ ∃ p ∈ t.phase, p ∈ sp) ∧
       (ss = [] ∨ t.status ∈ ss) ∧
       em ≤ t.enrollmentCount.getD 0 ∧
       (io = false ∨ (jsIncludes (lowerStr t.sponsor) "university" = false ∧
                      jsIncludes (lowerStr t.sponsor) "hospital" = false))) := by
  unfold filteredTrials
  rw [List.mem_insertionSort, List.mem_filter]
  simp only [trialMatches, Bool.and_eq_true, Bool.or_eq_true, Bool.not_eq_true,
    Bool.not_eq_eq_eq_not, Bool.not_true, List.isEmpty_iff, List.any_eq_true,
    List.elem_iff, decide_eq_true_eq]
  constructor
  · rintro ⟨hmem, ⟨⟨⟨hs, hph⟩, hst⟩, hen⟩, hsp⟩
    exact ⟨hmem, or_assoc.mp hs, hph, hst, hen, hsp⟩
  · rintro ⟨hmem, hs, hph, hst, hen, hsp⟩
    exact ⟨hmem, ⟨⟨⟨or_assoc.mpr hs, hph⟩, hst⟩, hen⟩, hsp⟩

/-- Claim C8: for every trial collection and facet selection, the
filtered trial set contains exactly the trials satisfying the
conjunction of: case-insensitive substring match of the local text
against title or registry id or sponsor; empty selected-phases set or a
phase in common; empty selected-statuses set or status selected;
enrollment count (missing treated as 0) at least the threshold; and
industry-only off or sponsor containing neither university nor hospital
(case-insensitively). -/
theorem claim_C8_filter_characterization (trials : List Trial) (q : String)
    (sp ss : List String) (em : Nat) (io : Bool) (so : SortOrder) (sb : TrialSortBy)
    (t : Trial) :
    t ∈ filteredTrials trials q sp ss em io so sb ↔
      (t ∈ trials ∧
       (jsIncludes (lowerStr t.title) (lowerStr q) = true ∨
        jsIncludes (lowerStr t.nctId) (lowerStr q) = true ∨
        jsIncludes (lowerStr t.sponsor) (lowerStr q) = true) ∧
       (sp = [] ∨ ∃ p ∈ t.phase, p ∈ sp) ∧
       (ss = [] ∨ t.status ∈ ss) ∧
       em ≤ t.enrollmentCount.getD 0 ∧
       (io = false ∨ (jsIncludes (lowerStr t.sponsor) "university" = false ∧
                      jsIncludes (lowerStr t.sponsor) "hospital" = false))) :=
  mem_filteredTrials trials q sp ss em io so sb t

/-- Witness for C8 at a concrete trial and facet selection. -/
theorem claim_C8_filter_characterization_witness :
    sampleTrial1 ∈ filteredTrials [sampleTrial1, sampleTrial2] "alpha" [] ["RECRUITING"]
        100 true .relevance .date ↔
      (sampleTrial1 ∈ ([sampleTrial1, sampleTrial2] : List Trial) ∧
       (jsIncludes (lowerStr sampleTrial1.title) (lowerStr "alpha") = true ∨
        jsIncludes (lowerStr sampleTrial1.nctId) (lowerStr "alpha") = true ∨
        jsIncludes (lowerStr sampleTrial1.sponsor) (lowerStr "alpha") = true) ∧
       (([] : List String) = [] ∨ ∃ p ∈ sampleTrial1.phase, p ∈ ([] : List String)) ∧
       ((["RECRUITING"] : List String) = [] ∨ sampleTrial1.status ∈ ["RECRUITING"]) ∧
       100 ≤ sampleTrial1.enrollmentCount.getD 0 ∧
       (true = false ∨ (jsIncludes (lowerStr sampleTrial1.sponsor) "university" = false ∧
                        jsIncludes (lowerStr sampleTrial1.sponsor) "hospital" = false))) :=
  claim_C8_filter_characterization [sampleTrial1, sampleTrial2] "alpha" [] ["RECRUITING"]
    100 true .relevance .date sampleTrial1

/-- A nonnegative-difference comparison is nonpositive exactly when the
first operand is at most the second. -/
theorem sub_nonpos_iff (m n : Nat) : ((m : Int) - (n : Int) ≤ 0) ↔ m ≤ n := by
  omega

/-- The three-way string comparison is nonpositive exactly for `≤`. -/
theorem strCmp_nonpos (a b : String) : strCmp a b ≤ 0 ↔ a ≤ b := by
  unfold strCmp
  rcases lt_trichotomy a b with h | h | h
  · simp [h, le_of_lt h]
  · subst h
    simp
  · have h1 : ¬ a < b := asymm h
    have h2 : ¬ a ≤ b := not_le.mpr h
    simp [h1, h, h2]

/-- A comparison sort with comparator `cmp` yields a list sorted for any
relation `R` agreeing with nonpositivity of `cmp`, provided `cmp` is
total and `R` transitive. -/
theorem sorted_by_cmp {α : Type} (cmp : α → α → Int) (R : α → α → Prop)
    (hR : ∀ a b, (cmp a b ≤ 0) ↔ R a b)
    (htot : ∀ a b, cmp a b ≤ 0 ∨ cmp b a ≤ 0)
    (htrans : ∀ a b c, R a b → R b c → R a c) (l : List α) :
    List.Sorted R (l.insertionSort (fun a b => cmp a b ≤ 0)) := by
  haveI inst1 : IsTotal α (fun a b => cmp a b ≤ 0) := ⟨htot⟩
  haveI inst2 : IsTrans α (fun a b => cmp a b ≤ 0) := ⟨fun a b c hab hbc =>
    (hR a c).mpr (htrans a b c ((hR a b).mp hab) ((hR b c).mp hbc))⟩
  exact (List.sorted_insertionSort _ l).imp (fun h => (hR _ _).mp h)

/-- Claim C9: the Facet/Sort Engine orders the filtered result by the
sort policy: under relevance, descending by score with missing score 0;
under newest with secondary key date, descending by start date with
missing date epoch 0; with secondary key phase, descending by first
phase code with missing treated as empty; with secondary key title,
ascending by title; and in each configuration the output is a
permutation of the filtered collection. -/
theorem claim_C9_sort_policy (trials : List Trial) (q : String) (sp ss : List String)
    (em : Nat) (io : Bool) :
    (∀ sb, List.Sorted (fun a b : Trial => relevanceKey b ≤ relevanceKey a)
        (filteredTrials trials q sp ss em io .relevance sb)) ∧
    List.Sorted (fun a b : Trial => dateKey b ≤ dateKey a)
        (filteredTrials trials q sp ss em io .newest .date) ∧
    List.Sorted (fun a b : Trial => phaseKey b ≤ phaseKey a)
        (filteredTrials trials q sp ss em io .newest .phase) ∧
    List.Sorted (fun a b : Trial => a.title ≤ b.title)
        (filteredTrials trials q sp ss em io .newest .title) ∧
    (∀ so sb, (filteredTrials trials q sp ss em io so sb).Perm
        (trials.filter (trialMatches q sp ss em io))) := by
  refine ⟨?_, ?_, ?_, ?_, ?_⟩
  · intro sb
    unfold filteredTrials
    exact sorted_by_cmp (trialCmp .relevance sb) _
      (fun a b => sub_nonpos_iff (relevanceKey b) (relevanceKey a))
      (fun a b => by
        simp only [trialCmp]
        omega)
      (fun a b c h1 h2 => le_trans h2 h1) _
  · unfold filteredTrials
    exact sorted_by_cmp (trialCmp .newest .date) _
      (fun a b => sub_nonpos_iff (dateKey b) (dateKey a))
      (fun a b => by
        simp only [trialCmp]
        omega)
      (fun a b c h1 h2 => le_trans h2 h1) _
  · unfold filteredTrials
    exact sorted_by_cmp (trialCmp .newest .phase) _
      (fun a b => strCmp_nonpos (phaseKey b) (phaseKey a))
      (fun a b => (le_total (phaseKey b) (phaseKey a)).imp
        (strCmp_nonpos (phaseKey b) (phaseKey a)).mpr
        (strCmp_nonpos (phaseKey a) (phaseKey b)).mpr)
      (fun a b c h1 h2 => le_trans h2 h1) _
  · unfold filteredTrials
    exact sorted_by_cmp (trialCmp .newest .title) _
      (fun a b => strCmp_nonpos a.title b.title)
      (fun a b => (le_total a.title b.title).imp
        (strCmp_nonpos a.title b.title).mpr
        (strCmp_nonpos b.title a.title).mpr)
      (fun a b c h1 h2 => le_trans h1 h2) _
  · intro so sb
    unfold filteredTrials
    exact List.perm_insertionSort _ _

/-- Counterexample to claim C10 as stated: with the non-empty
selected-phases set containing only PHASE1, the phase-2 trial is
excluded, yet after extending the selection by PHASE2 it is included —
the extended filtered result is not a subset of the unextended one. -/
theorem claim_C10_cex_phase_extension_adds :
    sampleTrial2 ∈ filteredTrials [sampleTrial2] "" ["PHASE2", "PHASE1"] [] 0 false
        .relevance .date ∧
    sampleTrial2 ∉ filteredTrials [sampleTrial2] "" ["PHASE1"] [] 0 false
        .relevance .date := by
  decide

/-- Claim C10 (amended): extending the selected-phases set by a phase
code p can only remove trials when the set was empty (the extended
filtered result is a subset of the unextended one), but when the set was
already non-empty it can only add trials (the unextended filtered result
is a subset of the extended one). -/
theorem claim_C10_phase_facet_monotonicity (trials : List Trial) (q : String)
    (p : String) (sp ss : List String) (em : Nat) (io : Bool) (so : SortOrder)
    (sb : TrialSortBy) (t : Trial) :
    (sp = [] → t ∈ filteredTrials trials q (p :: sp) ss em io so sb →
      t ∈ filteredTrials trials q sp ss em io so sb) ∧
    (sp ≠ [] → t ∈ filteredTrials trials q sp ss em io so sb →
      t ∈ filteredTrials trials q (p :: sp) ss em io so sb) := by
  constructor
  · intro hsp hmem
    rw [mem_filteredTrials] at hmem ⊢
    obtain ⟨h1, h2, _, h4, h5, h6⟩ := hmem
    exact ⟨h1, h2, Or.inl hsp, h4, h5, h6⟩
  · intro hsp hmem
    rw [mem_filteredTrials] at hmem ⊢
    obtain ⟨h1, h2, h3, h4, h5, h6⟩ := hmem
    refine ⟨h1, h2, ?_, h4, h5, h6⟩
    rcases h3 with h | ⟨x, hx1, hx2⟩
    · exact absurd h hsp
    · exact Or.inr ⟨x, hx1, List.mem_cons_of_mem p hx2⟩

/-- Witness for the amended C10: for a non-empty selection, a trial in
the unextended filtered result is still in the extended one. -/
theorem claim_C10_phase_facet_monotonicity_witness :
    sampleTrial2 ∈ filteredTrials [sampleTrial2] "" ["PHASE1", "PHASE2"] [] 0 false
      .relevance .date :=
  (claim_C10_phase_facet_monotonicity [sampleTrial2] "" "PHASE1" ["PHASE2"] [] 0 false
    .relevance .date sampleTrial2).2 (by decide) (by decide)

end TrialAtlas
